import Mathlib

/-!
# Farseer supplier-integration engine: a shallow embedding

This file embeds, in Lean 4, the parts of the Farseer repository that its
specification makes checkable claims about:

* `src/clients/vax/vax.client.ts` (`VaxClient`): the short-date parser
  (`parseVaxShortDate`), the search POST-body construction (`search`), the
  extraction engine (`parseSearchHtml`, `parseHotelSection`,
  `parseRoomOptions`), and the multi-vendor orchestrator (`searchAllVendors`).
* `src/lib/searchCache.ts`: `generateSearchCacheKey` and the save/load
  behaviour of the result cache as it is observed by the orchestrator.
* `src/clients/baseClient.ts`: `CookieJar`.
* `src/utils/sessionStorage.ts`: `SessionStorage.loadSession`.

Modelling conventions:

* TypeScript strings are Lean `String`s; the handful of JavaScript regexes the
  code uses are reimplemented as explicit character scanners, one definition
  per regex, each documented with the regex it mirrors.  All the regexes in
  scope are of the simple form «literal, then a greedy character-class run,
  then a literal» where the closing literal's first character is outside the
  class, so greedy maximal-munch scanning coincides with the backtracking
  semantics of the JavaScript engine.
* JavaScript `Map`s and JSON-file stores become association lists
  (`List (String × _)`) with insertion-order `set` semantics.
* Numeric fields the code merely copies around (prices, ratings parsed with
  `parseFloat`/`parseInt`) are represented by the exact character strings the
  code extracts, since no claim performs arithmetic on them and IEEE floats
  are outside the embedding.
* `async` effects (HTTP, the database, timers) are made explicit: the
  orchestrator is a pure function of an *environment* recording the outcome
  of each external call, and it additionally returns the ordered trace of
  external events it performed, so that ordering claims can be stated.
* Wall-clock time (`Date.now()`) becomes an explicit `now : Int` argument
  (millisecond timestamps).
-/

namespace Farseer

/-- Characters matched by the JavaScript character class `[a-zA-Z0-9]`. -/
def isAlnumAscii (c : Char) : Bool :=
  ('a' ≤ c && c ≤ 'z') || ('A' ≤ c && c ≤ 'Z') || ('0' ≤ c && c ≤ '9')

/-- `String.prototype.trim`: strip leading and trailing whitespace. -/
def jsTrim (s : String) : String :=
  String.mk (((s.data.dropWhile Char.isWhitespace).reverse.dropWhile Char.isWhitespace).reverse)

/-- Helper for `jsSplitChar`: accumulates the current piece (reversed). -/
def jsSplitCharAux (sep : Char) : List Char → List Char → List String
  | [], acc => [String.mk acc.reverse]
  | c :: rest, acc =>
    if c = sep then String.mk acc.reverse :: jsSplitCharAux sep rest []
    else jsSplitCharAux sep rest (c :: acc)

/-- `String.prototype.split` for a single-character separator (the only
form the code uses: `";"` and `"="`): splits at **every** occurrence,
keeping empty pieces, and returns `[""]` for the empty string. -/
def jsSplitChar (s : String) (sep : Char) : List String :=
  jsSplitCharAux sep s.data []

/-! ## `searchCache.ts`: `generateSearchCacheKey` -/

/-- `Omit<VaxSearchParams, "vendor" | "packageType">` from `vax.models.ts`:
the business search parameters handed to `searchAllVendors` and to the cache
key generator. -/
structure VaxSearchParamsBase where
  origin : String
  destination : String
  checkIn : String
  checkOut : String
  rooms : Nat
  adultsPerRoom : List Nat
  childrenPerRoom : List Nat
  childAges : List (List Nat)
deriving Repr, DecidableEq

/-- The `sanitize` closure inside `generateSearchCacheKey`:
`str.replace(/[^a-zA-Z0-9]/g, "_")` — every character outside `[a-zA-Z0-9]`
is replaced by an underscore (not removed). -/
def sanitizeCacheKeyPart (s : String) : String :=
  String.mk (s.data.map (fun c => if isAlnumAscii c then c else '_'))

/-- `generateSearchCacheKey` from `src/lib/searchCache.ts` (lines 9–30):
the canonical cache key for a parameter set. -/
def generateSearchCacheKey (params : VaxSearchParamsBase) : String :=
  let parts : List String :=
    [sanitizeCacheKeyPart params.origin,
     sanitizeCacheKeyPart params.destination,
     params.checkIn,
     params.checkOut,
     toString params.rooms,
     String.intercalate "-" (params.adultsPerRoom.map toString)]
  let parts :=
    if params.childrenPerRoom.any (fun count => count > 0) then
      let parts := parts ++ [String.intercalate "-" (params.childrenPerRoom.map toString)]
      if params.childAges.length > 0 then
        parts ++
          [String.intercalate "_"
            (params.childAges.map (fun ages => String.intercalate "-" (ages.map toString)))]
      else parts
    else parts
  String.intercalate "_" parts

/-! ## `vax.client.ts`: `parseVaxShortDate` -/

/-- The regex `^(\d{2})` (`dayMatch` in `parseVaxShortDate`): captures the
first two characters when both are digits. -/
def matchTwoDigitsAtStart : List Char → Option String
  | c1 :: c2 :: _ => if c1.isDigit && c2.isDigit then some (String.mk [c1, c2]) else none
  | _ => none

/-- The regex `[A-Z]{3}` (`monthMatch` in `parseVaxShortDate`): the leftmost
run of three consecutive ASCII uppercase letters. -/
def matchThreeUppercase : List Char → Option String
  | c1 :: c2 :: c3 :: rest =>
    if c1.isUpper && c2.isUpper && c3.isUpper then some (String.mk [c1, c2, c3])
    else matchThreeUppercase (c2 :: c3 :: rest)
  | _ => none

/-- The regex `(\d{2})$` (`yearMatch` in `parseVaxShortDate`): captures the
last two characters when both are digits. -/
def matchTwoDigitsAtEnd (l : List Char) : Option String :=
  match l.reverse with
  | c2 :: c1 :: _ => if c1.isDigit && c2.isDigit then some (String.mk [c1, c2]) else none
  | _ => none

/-- The `monthMap` table inside `parseVaxShortDate`. -/
def monthMap : List (String × String) :=
  [("JAN", "01"), ("FEB", "02"), ("MAR", "03"), ("APR", "04"), ("MAY", "05"),
   ("JUN", "06"), ("JUL", "07"), ("AUG", "08"), ("SEP", "09"), ("OCT", "10"),
   ("NOV", "11"), ("DEC", "12")]

/-- `VaxClient.parseVaxShortDate` (vax.client.ts lines 685–724): converts the
upstream short date format `DDMMMYY` (e.g. `10JAN26`) to an ISO-style string.
The year is unconditionally prefixed with `"20"`; an unknown month falls back
to `"01"`; if any of the three regexes fails the input is returned as-is. -/
def parseVaxShortDate (dateStr : String) : String :=
  if dateStr = "" then ""
  else
    match matchTwoDigitsAtStart dateStr.data, matchThreeUppercase dateStr.data,
        matchTwoDigitsAtEnd dateStr.data with
    | some day, some monthStr, some yy =>
      let year := "20" ++ yy
      let month := (monthMap.lookup monthStr).getD "01"
      year ++ "-" ++ month ++ "-" ++ day
    | _, _, _ => dateStr

/-! ## `baseClient.ts`: `CookieJar` -/

/-- A JavaScript `Map<string, string>` as an insertion-ordered association
list; `Map.set` updates an existing key in place and appends a new one. -/
def jsMapSet (m : List (String × String)) (k v : String) : List (String × String) :=
  if m.any (fun kv => kv.1 == k) then
    m.map (fun kv => if kv.1 == k then (k, v) else kv)
  else m ++ [(k, v)]

/-- `CookieJar.setCookies` (baseClient.ts lines 61–71).  For each
`Set-Cookie` header: take the text before the first `;`, split it on *every*
`=`, and destructure only the first two pieces as name and value; the cookie
is stored (trimmed) only when both are non-empty, so any text after a second
`=` is dropped. -/
def setCookies (jar : List (String × String)) (headers : List String) :
    List (String × String) :=
  headers.foldl
    (fun jar header =>
      let cookiePair := (jsSplitChar header ';').headD ""
      match jsSplitChar cookiePair '=' with
      | name :: value :: _ =>
        if name ≠ "" && value ≠ "" then jsMapSet jar (jsTrim name) (jsTrim value) else jar
      | _ => jar)
    jar

/-- `CookieJar.getCookieHeader` (baseClient.ts lines 80–84). -/
def getCookieHeader (jar : List (String × String)) : String :=
  String.intercalate "; " (jar.map (fun kv => kv.1 ++ "=" ++ kv.2))

/-- `CookieJar.getCookie` (baseClient.ts lines 86–88). -/
def getCookie (jar : List (String × String)) (name : String) : Option String :=
  jar.lookup name

/-! ## `sessionStorage.ts`: `SessionStorage` -/

/-- `StoredSession` from `src/utils/sessionStorage.ts`; the session `data`
payload is opaque to the storage layer (`Record<string, any>`), so it is a
type parameter here.  Timestamps are millisecond values of `Date.now()`. -/
structure StoredSession (α : Type) where
  id : String
  data : α
  expiresAt : Int
  createdAt : Int
deriving Repr, DecidableEq

/-- `SessionStorage.getSessionPath` sanitization:
`sessionId.replace(/[^a-zA-Z0-9-_]/g, '_')` — the stored file is keyed by
this sanitized id. -/
def sanitizeSessionId (s : String) : String :=
  String.mk (s.data.map (fun c => if isAlnumAscii c || c = '-' || c = '_' then c else '_'))

/-- The on-disk session store: one JSON file per sanitized session id. -/
abbrev SessionStore (α : Type) := List (String × StoredSession α)

/-- `SessionStorage.deleteSession` (sessionStorage.ts lines 116–126):
removes the session file; missing files are ignored. -/
def deleteSession {α : Type} (store : SessionStore α) (sessionId : String) :
    SessionStore α :=
  List.filter (fun kv => decide (kv.1 ≠ sanitizeSessionId sessionId)) store

/-- `SessionStorage.loadSession` (sessionStorage.ts lines 85–110) at time
`now`: a missing file is a miss; a record with `now > expiresAt` is expired —
it is deleted as a side effect and the call returns a miss; otherwise the
stored `data` payload is returned and the store is untouched.  The function
returns the payload (or `none`) together with the store state after the
call. -/
def loadSession {α : Type} (now : Int) (store : SessionStore α) (sessionId : String) :
    Option α × SessionStore α :=
  match List.lookup (sanitizeSessionId sessionId) store with
  | none => (none, store)
  | some session =>
    if now > session.expiresAt then (none, deleteSession store sessionId)
    else (some session.data, store)

/-! ## `vax.client.ts`: search POST-body construction (`VaxClient.search`) -/

/-- `VaxSearchParams` from `vax.models.ts`: the per-vendor search parameters
(business parameters plus vendor code and package type). -/
structure VaxSearchParams extends VaxSearchParamsBase where
  vendor : String
  packageType : String
deriving Repr, DecidableEq

/-- A JavaScript object literal built by spreading then assigning computed
keys, as an insertion-ordered association list: assigning an existing key
updates its value in place, a new key is appended.  `formHiddenValues` is the
parse of a form's hidden inputs and therefore has no duplicate keys. -/
def jsObjSet (m : List (String × String)) (k v : String) : List (String × String) :=
  match m with
  | [] => [(k, v)]
  | kv :: rest => if kv.1 == k then (k, v) :: rest else kv :: jsObjSet rest k v

/-- `formatContentPlaceholderKey` from `VaxClient.search` (vax.client.ts
line 365). -/
def formatContentPlaceholderKey (key : String) : String :=
  "ctl00$ctl00$ContentPlaceHolder$ContentPlaceHolder$" ++ key

/-- `formatSearchComponentsKey` from `VaxClient.search` (vax.client.ts
lines 366–367). -/
def formatSearchComponentsKey (key : String) : String :=
  "ctl00$ctl00$ContentPlaceHolder$ContentPlaceHolder$scncc$ctl00$NavigationRepeater$ctl00$ctl00$SearchComponents$scc$rt$" ++ key

/-- The explicit entries of the `body` object literal in `VaxClient.search`
(vax.client.ts lines 369–406), in source order, after the spread of the
harvested hidden fields.  Number and boolean values are written as the
strings axios form-encodes them to.  Note `…$cr$ctl01$ChildDOBInput` appears
twice in the source literal (lines 386 and 388) with the same value. -/
def searchBodyEntries (params : VaxSearchParams) (smField : String) :
    List (String × String) :=
  [(formatContentPlaceholderKey "sm", smField),
   ("ctl00$ctl00$ContentPlaceHolder$ContentPlaceHolder$scncc$ctl00$NavigationRepeater$ctl00$ctl00$SearchComponents$ReservationToolType",
    "SingleStop"),
   (formatSearchComponentsKey "vendor", params.vendor),
   (formatSearchComponentsKey "package", params.packageType),
   (formatSearchComponentsKey "Origin", "Atlanta, Georgia (ATL)"),
   (formatSearchComponentsKey "Destination", "Las Vegas, Nevada (LAS)"),
   (formatSearchComponentsKey "departure", "10JAN26"),
   (formatSearchComponentsKey "numberOfNights", "7"),
   (formatSearchComponentsKey "return", "17JAN26"),
   (formatSearchComponentsKey "passengers$numrooms", "1"),
   (formatSearchComponentsKey "passengers$MaxPaxTextBox", ""),
   (formatSearchComponentsKey "passengers$pr$ctl00$pi$adults", "2"),
   (formatSearchComponentsKey "passengers$pr$ctl00$pi$children", "0"),
   (formatSearchComponentsKey "passengers$pr$ctl00$pi$cr$ctl01$ChildAgeInput", ""),
   (formatSearchComponentsKey "passengers$pr$ctl00$pi$cr$ctl01$ChildDOBInput", ""),
   (formatSearchComponentsKey "passengers$pr$ctl00$pi$cr$ctl01$DateDropDownComponentDisplay$MonthDropDown", ""),
   (formatSearchComponentsKey "passengers$pr$ctl00$pi$cr$ctl01$ChildDOBInput", ""),
   (formatSearchComponentsKey "passengers$pr$ctl00$pi$cr$ctl01$DateDropDownComponentDisplay$YearDropDown", ""),
   (formatSearchComponentsKey "promocode", ""),
   (formatSearchComponentsKey "aircarrier", "~"),
   (formatSearchComponentsKey "aircabin", "Y"),
   (formatSearchComponentsKey "airstops", "50"),
   (formatSearchComponentsKey "airdepart", ""),
   (formatSearchComponentsKey "airreturn", ""),
   (formatSearchComponentsKey "airfare", ""),
   (formatSearchComponentsKey "hotelname", ""),
   (formatSearchComponentsKey "drpDownHotelBrandInput", "~"),
   (formatSearchComponentsKey "hotelcheckin", "10JAN26"),
   (formatSearchComponentsKey "hotelcheckout", "17JAN26"),
   (formatSearchComponentsKey "vehiclebrand", "~"),
   (formatSearchComponentsKey "vehiclepickupdate", "10JAN26"),
   (formatSearchComponentsKey "vehicledropoffdate", "17JAN26"),
   (formatSearchComponentsKey "submit", "Search"),
   ("__ASYNCPOST", "false")]

/-- The `body` object of `VaxClient.search`: the harvested hidden form
fields (`...formHiddenValues`) overlaid, in order, with the explicit
entries. -/
def buildSearchPostBody (params : VaxSearchParams)
    (formHiddenValues : List (String × String)) (smField : String) :
    List (String × String) :=
  (searchBodyEntries params smField).foldl (fun body kv => jsObjSet body kv.1 kv.2)
    formHiddenValues

/-! ## Regex scanners for the extraction engine

Each definition mirrors one JavaScript regex from `vax.client.ts`; leftmost
match is obtained by trying the anchored matcher at every start position. -/

/-- Leftmost-match search (the semantics of `String.prototype.match`): try
the anchored matcher at each start position, leftmost first. -/
def scanFirst {α : Type} (m : List Char → Option α) : List Char → Option α
  | [] => m []
  | c :: rest =>
    match m (c :: rest) with
    | some a => some a
    | none => scanFirst m rest

/-- Anchored literal match, returning the remaining input. -/
def matchLit : List Char → List Char → Option (List Char)
  | [], rest => some rest
  | _ :: _, [] => none
  | l :: ls, c :: cs => if c = l then matchLit ls cs else none

/-- Anchored case-insensitive literal match (for a regex with the `i`
flag), returning the remaining input. -/
def matchLitCaseless : List Char → List Char → Option (List Char)
  | [], rest => some rest
  | _ :: _, [] => none
  | l :: ls, c :: cs => if c.toLower = l.toLower then matchLitCaseless ls cs else none

/-- Anchored `LIT([c]+)` where the capture runs to the first character
outside the class (greedy; nothing follows the capture in the regex). Used
for `HotelId=(\d+)`, `VendorCode=([^&]+)`, `RemoteSourceCode=([^&]+)`,
`DestinationCode=([^&]+)`, `room=([^&]+)` and `program=([^&'"]+)`. -/
def matchLitThenRun (lit : List Char) (p : Char → Bool) (l : List Char) :
    Option String :=
  match matchLit lit l with
  | none => none
  | some rest =>
    let run := rest.takeWhile p
    if run.isEmpty then none else some (String.mk run)

/-- Anchored `([c]+)LIT` where the literal's first character is outside the
class, so the greedy run needs no backtracking.  Used for
`([\d.]+) of 5 stars` and `([\d.]+) miles`. -/
def matchRunThenLit (p : Char → Bool) (lit : List Char) (l : List Char) :
    Option String :=
  let run := l.takeWhile p
  if run.isEmpty then none
  else
    match matchLit lit (l.dropWhile p) with
    | some _ => some (String.mk run)
    | none => none

/-- Anchored `Based on ([\d,]+) reviews` (vax.client.ts line 526). -/
def matchBasedOnReviews (l : List Char) : Option String :=
  match matchLit "Based on ".data l with
  | none => none
  | some rest =>
    let run := rest.takeWhile (fun c => c.isDigit || c = ',')
    if run.isEmpty then none
    else
      match matchLit " reviews".data (rest.dropWhile (fun c => c.isDigit || c = ',')) with
      | some _ => some (String.mk run)
      | none => none

/-- Anchored `\$([0-9,]+\.\d{2})` (vax.client.ts line 622): a dollar sign,
a greedy digits-and-commas run, a dot and exactly two digits; the capture
includes the dot and the two digits. -/
def matchDollarPrice (l : List Char) : Option String :=
  match l with
  | c :: rest =>
    if c = '$' then
      let run := rest.takeWhile (fun x => x.isDigit || x = ',')
      if run.isEmpty then none
      else
        match rest.dropWhile (fun x => x.isDigit || x = ',') with
        | '.' :: d1 :: d2 :: _ =>
          if d1.isDigit && d2.isDigit then some (String.mk (run ++ '.' :: [d1, d2]))
          else none
        | _ => none
    else none
  | [] => none

/-- Anchored `\$([0-9,]+\.\d{2}) per person` (vax.client.ts line 628). -/
def matchDollarPricePerPerson (l : List Char) : Option String :=
  match l with
  | c :: rest =>
    if c = '$' then
      let run := rest.takeWhile (fun x => x.isDigit || x = ',')
      if run.isEmpty then none
      else
        match rest.dropWhile (fun x => x.isDigit || x = ',') with
        | '.' :: d1 :: d2 :: rest2 =>
          if d1.isDigit && d2.isDigit then
            match matchLit " per person".data rest2 with
            | some _ => some (String.mk (run ++ '.' :: [d1, d2]))
            | none => none
          else none
        | _ => none
    else none
  | [] => none

/-- Anchored `LABEL\s*-\s*(\d{2}[A-Z]{3}\d{2})` with the `i` flag
(vax.client.ts lines 447–448), where `LABEL` is `Check-in` or `Check-out`:
the label (case-insensitive), optional whitespace, a hyphen, optional
whitespace, then two digits, three ASCII letters (case-insensitive because
of the flag) and two digits, captured verbatim. -/
def matchHeaderDate (label : List Char) (l : List Char) : Option String :=
  match matchLitCaseless label l with
  | none => none
  | some rest =>
    match rest.dropWhile Char.isWhitespace with
    | c :: rest2 =>
      if c = '-' then
        match rest2.dropWhile Char.isWhitespace with
        | d1 :: d2 :: m1 :: m2 :: m3 :: y1 :: y2 :: _ =>
          if d1.isDigit && d2.isDigit && m1.isAlpha && m2.isAlpha && m3.isAlpha
              && y1.isDigit && y2.isDigit then
            some (String.mk [d1, d2, m1, m2, m3, y1, y2])
          else none
        | _ => none
      else none
    | [] => none

/-! ## `vax.client.ts`: the extraction engine

A raw response document is embedded as the outcome of the cheerio queries
the code performs: the header text, and the document's table rows in order,
each row carrying the queried sub-elements it contains (`none`/`""` when the
corresponding selector matches nothing, exactly as cheerio's `.attr` returns
`undefined` — defaulted to `""` by the code — and `.text()` of an empty
selection returns `""`). -/

/-- The queried content of a `.hotel-avail-room-type-wrap` block inside one
row (the room data of `parseRoomOptions`). -/
structure VaxRoomWrapperDoc where
  /-- `onclick` of the first `a[onclick*="room="]` link; `""` when absent. -/
  roomLinkOnclick : String
  /-- text of that link; `""` when absent. -/
  roomLinkText : String
  /-- text of the first `.hotel-room-col-3 strong`. -/
  priceStrongText : String
  /-- text of the whole `.hotel-room-col-3` column. -/
  priceColText : String
  /-- texts of the `.added-value-wrap button.link` elements, in order. -/
  addedValueButtonTexts : List String
  /-- texts of the `[id*="ValueTooltipTrigger"]` elements, in order. -/
  valueIndicatorTexts : List String
deriving Repr, DecidableEq

/-- The queried content of the `.hotel-info-wrapper` block of a hotel row
(the inputs of `parseHotelSection`). -/
structure VaxHotelInfoDoc where
  /-- text of the first `a[onclick*="HotelInformation/Default.aspx"]`;
  `""` when the link is absent. -/
  nameLinkText : String
  /-- `onclick` of that link; `""` when absent. -/
  nameLinkOnclick : String
  /-- number of `.rating_ST` elements. -/
  ratingMarkerCount : Nat
  /-- `alt` of the first `img[alt*="of 5 stars"]`; `none` when there is no
  such image. -/
  taImgAlt : Option String
  /-- text of the first `a:contains("Based on")` link; `none` when there is
  no such link. -/
  basedOnLinkText : Option String
  /-- text of the first `.hotel-location-info`. -/
  locationText : String
  /-- text of `strong:contains('miles')`. -/
  milesStrongText : String
deriving Repr, DecidableEq

/-- One `<tr>` of the response document. -/
structure VaxRowDoc where
  /-- whether the row has class `room-repeater-visibility` (a hotel
  boundary row). -/
  isHotelRow : Bool
  /-- the `.hotel-info-wrapper` content, when the row has one. -/
  hotelInfo : Option VaxHotelInfoDoc
  /-- `onclick` of a `button.cleaning-badge` in the row, when present. -/
  badgeOnclick : Option String
  /-- the `.hotel-avail-room-type-wrap` content, when the row has one. -/
  roomWrapper : Option VaxRoomWrapperDoc
deriving Repr, DecidableEq

/-- A raw search-response document, as observed through the cheerio
queries of `parseSearchHtml`. -/
structure VaxSearchDoc where
  /-- `$(".avail-content-wrap").text()`: the header region's text. -/
  headerText : String
  /-- the document's `<tr>` elements, in document order. -/
  rows : List VaxRowDoc
deriving Repr, DecidableEq

/-- `VaxRoomOption` from `vax.models.ts`.  Price fields hold the exact
character strings the code extracts (`parseFloat` of these is what the code
stores); `totalPrice = none` models the numeric default `0` used when the
price pattern does not match. -/
structure VaxRoomOption where
  code : String
  name : String
  totalPrice : Option String
  pricePerPerson : Option String
  addedValues : Option (List String)
  valueIndicators : Option (List String)
deriving Repr, DecidableEq

/-- `VaxHotelResult` from `vax.models.ts`.  As with rooms, the secondary
rating, review count and distance hold the extracted character strings. -/
structure VaxHotelResult where
  hotelId : String
  name : String
  rating : Nat
  tripAdvisorRating : Option String
  tripAdvisorReviews : Option String
  location : String
  distanceFromAirport : Option String
  rooms : List VaxRoomOption
  vendor : String
  remoteSource : String
  destinationCode : String
  checkIn : String
  checkOut : String
  cleaningBadge : Option String
deriving Repr, DecidableEq

/-- `VaxClient.parseRoomOptions` (vax.client.ts lines 596–679) restricted to
the sibling rows following a hotel row up to the next hotel boundary (the
`.next()` walk of the source): each row holding a room wrapper yields one
room, except that an empty room name skips the row. -/
def parseRoomOptions (roomRows : List VaxRowDoc) : List VaxRoomOption :=
  roomRows.foldl
    (fun rooms row =>
      match row.roomWrapper with
      | none => rooms
      | some w =>
        let onclickAttr := w.roomLinkOnclick
        let code :=
          (scanFirst (matchLitThenRun "room=".data (fun c => c ≠ '&')) onclickAttr.data).getD ""
        let name := jsTrim w.roomLinkText
        if name = "" then rooms
        else
          let totalPrice := scanFirst matchDollarPrice w.priceStrongText.data
          let pricePerPerson := scanFirst matchDollarPricePerPerson w.priceColText.data
          let addedValues := (w.addedValueButtonTexts.map jsTrim).filter (fun v => v ≠ "")
          let valueIndicators := (w.valueIndicatorTexts.map jsTrim).filter (fun v => v ≠ "")
          rooms ++
            [{ code := code, name := name, totalPrice := totalPrice,
               pricePerPerson := pricePerPerson,
               addedValues := if addedValues.length > 0 then some addedValues else none,
               valueIndicators := if valueIndicators.length > 0 then some valueIndicators else none }])
    []

/-- `VaxClient.parseHotelSection` (vax.client.ts lines 479–590): `none` when
the row has no `.hotel-info-wrapper` or the interactive name element is
absent or empty — a nameless row is not a hotel; otherwise the extracted
hotel with its rooms parsed from the following rows. -/
def parseHotelSection (checkIn checkOut : String) (hotelRow : VaxRowDoc)
    (followingRows : List VaxRowDoc) : Option VaxHotelResult :=
  match hotelRow.hotelInfo with
  | none => none
  | some info =>
    let name := jsTrim info.nameLinkText
    if name = "" then none
    else
      let onclickAttr := info.nameLinkOnclick
      let hotelId :=
        (scanFirst (matchLitThenRun "HotelId=".data Char.isDigit) onclickAttr.data).getD ""
      let vendor :=
        (scanFirst (matchLitThenRun "VendorCode=".data (fun c => c ≠ '&')) onclickAttr.data).getD ""
      let remoteSource :=
        (scanFirst (matchLitThenRun "RemoteSourceCode=".data (fun c => c ≠ '&')) onclickAttr.data).getD ""
      let destinationCode :=
        (scanFirst (matchLitThenRun "DestinationCode=".data (fun c => c ≠ '&')) onclickAttr.data).getD ""
      let tripAdvisorRating :=
        match info.taImgAlt with
        | none => none
        | some altText =>
          scanFirst (matchRunThenLit (fun c => c.isDigit || c = '.') " of 5 stars".data) altText.data
      let tripAdvisorReviews :=
        match info.taImgAlt with
        | none => none
        | some _ =>
          match info.basedOnLinkText with
          | none => none
          | some reviewText => scanFirst matchBasedOnReviews reviewText.data
      let distanceFromAirport :=
        scanFirst (matchRunThenLit (fun c => c.isDigit || c = '.') " miles".data)
          info.milesStrongText.data
      let cleaningBadge :=
        match hotelRow.badgeOnclick with
        | none => none
        | some oc =>
          scanFirst
            (matchLitThenRun "program=".data (fun c => c ≠ '&' && c.val ≠ 39 && c.val ≠ 34))
            oc.data
      some
        { hotelId := hotelId, name := name, rating := info.ratingMarkerCount,
          tripAdvisorRating := tripAdvisorRating, tripAdvisorReviews := tripAdvisorReviews,
          location := jsTrim info.locationText, distanceFromAirport := distanceFromAirport,
          rooms := parseRoomOptions followingRows, vendor := vendor,
          remoteSource := remoteSource, destinationCode := destinationCode,
          checkIn := checkIn, checkOut := checkOut, cleaningBadge := cleaningBadge }

/-- The `hotelRows.each` loop of `parseSearchHtml`: every hotel boundary row
is parsed, its room rows being the following rows up to the next boundary;
rows whose `parseHotelSection` yields `none` contribute nothing. -/
def parseSearchRows (checkIn checkOut : String) : List VaxRowDoc → List VaxHotelResult
  | [] => []
  | row :: rest =>
    if row.isHotelRow then
      match parseHotelSection checkIn checkOut row (rest.takeWhile (fun r => !r.isHotelRow)) with
      | some hotel => hotel :: parseSearchRows checkIn checkOut rest
      | none => parseSearchRows checkIn checkOut rest
    else parseSearchRows checkIn checkOut rest

/-- `VaxClient.parseSearchHtml` (vax.client.ts lines 440–473): extract the
header check-in/check-out short dates (each defaulting to `""` when its
pattern finds no match), then parse every hotel boundary row. -/
def parseSearchHtml (doc : VaxSearchDoc) : List VaxHotelResult :=
  let checkInMatch := scanFirst (matchHeaderDate "Check-in".data) doc.headerText.data
  let checkOutMatch := scanFirst (matchHeaderDate "Check-out".data) doc.headerText.data
  let checkIn := match checkInMatch with | some m => parseVaxShortDate m | none => ""
  let checkOut := match checkOutMatch with | some m => parseVaxShortDate m | none => ""
  parseSearchRows checkIn checkOut doc.rows

/-! ## `vax.client.ts`: the multi-vendor orchestrator (`searchAllVendors`)

`searchAllVendors` (vax.client.ts lines 791–859) is a sequence of awaited
external calls.  It is embedded as a pure function of an environment that
records the outcome of each external call, and it returns, besides the
response, the ordered trace of external events performed, so that ordering
claims can be stated.  The per-vendor `this.search` call is abstracted as an
outcome per vendor code: `search` catches its own exceptions and returns an
unsuccessful response, but the orchestrator's inner `try` also guards
against a throw, so both shapes are represented. -/

/-- `VaxSearchResponse` from `vax.models.ts`. -/
structure VaxSearchResponse where
  success : Bool
  hotels : List VaxHotelResult
  error : Option String
deriving Repr, DecidableEq

/-- `VaxVendor` from `vax.models.ts`. -/
structure VaxVendor where
  code : String
  name : String
deriving Repr, DecidableEq

/-- Outcome of one `this.search(vendorParams)` call as seen by the
orchestrator's vendor loop. -/
inductive VendorOutcome where
  | threw (msg : String)
  | result (r : VaxSearchResponse)
deriving Repr, DecidableEq

/-- The external events `searchAllVendors` can perform, in the order it
performs them.  `netLogin` stands for the whole network login exchange of
`login()` (token page GET, credential POST, redirect GET); `dbCacheRead` and
`dbCacheWrite` are the result-cache database calls; `netVendorList` is the
search-page GET of `extractLiveVendors`; `vendorSearch c` is the per-vendor
`this.search` invocation. -/
inductive OrchEvent where
  | netLogin
  | dbCacheRead
  | netVendorList
  | vendorSearch (code : String)
  | dbCacheWrite
deriving Repr, DecidableEq

/-- Events that reach the upstream network (as opposed to the local
database or disk). -/
def isNetworkEvent : OrchEvent → Bool
  | .netLogin => true
  | .netVendorList => true
  | .vendorSearch _ => true
  | _ => false

/-- Outcomes of the external calls `searchAllVendors` makes.
`cachedResults` is the value of `getCachedSearchResults` — that function
catches every read error and returns `null`, so it never throws and `none`
covers both a miss and a degraded read failure.  `cacheWrite` is the
outcome of `saveSearchResultsToCache`, which logs and **rethrows** on
failure (searchCache.ts lines 169–172). -/
structure OrchEnv where
  /-- `this.session !== null` on entry (`isLoggedIn`). -/
  loggedIn : Bool
  /-- whether `login()` finds a valid stored session to restore (in which
  case it performs no network call). -/
  sessionRestoreHit : Bool
  cachedResults : Option (List VaxHotelResult)
  liveVendors : Except String (List VaxVendor)
  searchOutcome : String → VendorOutcome
  cacheWrite : Except String Unit

/-- `VaxClient.searchAllVendors` (vax.client.ts lines 791–859).  Line 792
awaits `ensureLoggedIn()` **before** the `try` block that starts with the
cache lookup; inside the `try`: a cache hit returns immediately; otherwise
the live vendor list is fetched, each vendor is searched sequentially — a
throw or an unsuccessful per-vendor result is skipped —, the aggregate is
written to the cache, and any error escaping the `try` (vendor-list fetch or
cache write) is caught and turned into a failure response with an empty
hotel list. -/
def searchAllVendors (env : OrchEnv) : VaxSearchResponse × List OrchEvent :=
  let loginEvents : List OrchEvent :=
    if env.loggedIn then [] else if env.sessionRestoreHit then [] else [.netLogin]
  let events := loginEvents ++ [OrchEvent.dbCacheRead]
  match env.cachedResults with
  | some cached => ({ success := true, hotels := cached, error := none }, events)
  | none =>
    let events := events ++ [OrchEvent.netVendorList]
    match env.liveVendors with
    | .error msg => ({ success := false, hotels := [], error := some msg }, events)
    | .ok vendors =>
      let step := fun (acc : List VaxHotelResult × List OrchEvent) (vendor : VaxVendor) =>
        let evs := acc.2 ++ [OrchEvent.vendorSearch vendor.code]
        match env.searchOutcome vendor.code with
        | .threw _ => (acc.1, evs)
        | .result r => if r.success then (acc.1 ++ r.hotels, evs) else (acc.1, evs)
      let loop := vendors.foldl step ([], [])
      let events := events ++ loop.2 ++ [OrchEvent.dbCacheWrite]
      match env.cacheWrite with
      | .error msg => ({ success := false, hotels := [], error := some msg }, events)
      | .ok _ => ({ success := true, hotels := loop.1, error := none }, events)

/-! ## Helper lemmas -/

/-- Unfolding lemma for `String.intercalate`'s accumulator. -/
lemma intercalate_go_append (s : String) :
    ∀ (t : List String) (pre x : String),
      String.intercalate.go (pre ++ x) s t = pre ++ String.intercalate.go x s t := by
  intro t
  induction t with
  | nil => intro pre x; rfl
  | cons c t ih =>
    intro pre x
    show String.intercalate.go (pre ++ x ++ s ++ c) s t = pre ++ String.intercalate.go (x ++ s ++ c) s t
    have h : pre ++ x ++ s ++ c = pre ++ (x ++ s ++ c) := by
      rw [String.append_assoc, String.append_assoc, String.append_assoc]
    rw [h, ih]

/-- `String.intercalate` on a list of at least two pieces peels off the
first piece and one separator. -/
lemma intercalate_cons₂ (s a b : String) (t : List String) :
    String.intercalate s (a :: b :: t) = a ++ s ++ String.intercalate s (b :: t) := by
  show String.intercalate.go a s (b :: t) = a ++ s ++ String.intercalate.go b s t
  show String.intercalate.go (a ++ s ++ b) s t = a ++ s ++ String.intercalate.go b s t
  rw [intercalate_go_append s t (a ++ s) b]

/-! ## Claim C5: the short-date parser -/

/-- Claim C5, counterexample: the claim says `parseVaxShortDate "01DEC99"`
is `"1999-12-01"`; in fact the year is unconditionally prefixed with `"20"`,
so the code returns `"2099-12-01"`. -/
theorem parseVaxShortDate_01DEC99_not_1999 :
    parseVaxShortDate "01DEC99" = "2099-12-01" ∧ parseVaxShortDate "01DEC99" ≠ "1999-12-01" := by
  constructor
  · decide
  · decide

/-- Claim C5 as amended: the short-date parser maps `"10JAN26"` to
`"2026-01-10"` and `"01DEC99"` to `"2099-12-01"`; whenever the day, month
and year patterns all match, the year component of the output is the
two-digit year prefixed with `"20"` (the `2000 + YY` rule, which yields
`20YY`, never `19YY`). -/
theorem parseVaxShortDate_spec :
    parseVaxShortDate "10JAN26" = "2026-01-10" ∧
    parseVaxShortDate "01DEC99" = "2099-12-01" ∧
    ∀ (s day monthStr yy : String),
      s ≠ "" →
      matchTwoDigitsAtStart s.data = some day →
      matchThreeUppercase s.data = some monthStr →
      matchTwoDigitsAtEnd s.data = some yy →
      parseVaxShortDate s =
        ("20" ++ yy) ++ "-" ++ (monthMap.lookup monthStr).getD "01" ++ "-" ++ day := by
  refine ⟨by decide, by decide, ?_⟩
  intro s day monthStr yy hs h1 h2 h3
  unfold parseVaxShortDate
  rw [if_neg hs, h1, h2, h3]

/-- Claim C5 witness: the general `2000 + YY` clause instantiated at
`"10JAN26"`. -/
theorem parseVaxShortDate_spec_witness :
    parseVaxShortDate "10JAN26" =
      ("20" ++ "26") ++ "-" ++ (monthMap.lookup "JAN").getD "01" ++ "-" ++ "10" :=
  parseVaxShortDate_spec.2.2 "10JAN26" "10" "JAN" "26" (by decide) (by decide) (by decide)
    (by decide)

/-! ## Claim C6: cache-key sanitization -/

/-- Claim C6, counterexample: with every other parameter equal, origin
`"ATL"` and origin `"AT-L "` do **not** generate the same cache key —
sanitization replaces each non-alphanumeric character with an underscore
rather than stripping it. -/
theorem generateSearchCacheKey_ATL_ne_ATdashL :
    generateSearchCacheKey
      { origin := "ATL", destination := "LAS", checkIn := "2025-12-30",
        checkOut := "2026-01-06", rooms := 1, adultsPerRoom := [2],
        childrenPerRoom := [0], childAges := [] } ≠
    generateSearchCacheKey
      { origin := "AT-L ", destination := "LAS", checkIn := "2025-12-30",
        checkOut := "2026-01-06", rooms := 1, adultsPerRoom := [2],
        childrenPerRoom := [0], childAges := [] } := by
  decide

/-- The cache key always starts with the sanitized origin followed by one
underscore separator; the remainder does not depend on the origin. -/
lemma generateSearchCacheKey_head (d ci co : String) (rm : Nat) (ad ch : List Nat)
    (ag : List (List Nat)) :
    ∃ r : String, ∀ o : String,
      generateSearchCacheKey ⟨o, d, ci, co, rm, ad, ch, ag⟩ =
        sanitizeCacheKeyPart o ++ "_" ++ r := by
  unfold generateSearchCacheKey
  by_cases hc : (ch.any fun count => decide (count > 0)) = true
  · by_cases ha : ag.length > 0
    · refine ⟨String.intercalate "_"
        [sanitizeCacheKeyPart d, ci, co, toString rm,
         String.intercalate "-" (ad.map toString),
         String.intercalate "-" (ch.map toString),
         String.intercalate "_" (ag.map fun ages => String.intercalate "-" (ages.map toString))],
        fun o => ?_⟩
      dsimp only
      rw [if_pos hc, if_pos ha]
      simp only [List.cons_append, List.nil_append]
      exact intercalate_cons₂ "_" _ _ _
    · refine ⟨String.intercalate "_"
        [sanitizeCacheKeyPart d, ci, co, toString rm,
         String.intercalate "-" (ad.map toString),
         String.intercalate "-" (ch.map toString)],
        fun o => ?_⟩
      dsimp only
      rw [if_pos hc, if_neg ha]
      simp only [List.cons_append, List.nil_append]
      exact intercalate_cons₂ "_" _ _ _
  · refine ⟨String.intercalate "_"
      [sanitizeCacheKeyPart d, ci, co, toString rm,
       String.intercalate "-" (ad.map toString)],
      fun o => ?_⟩
    dsimp only
    rw [if_neg hc]
    exact intercalate_cons₂ "_" _ _ _

/-- Claim C6 as amended: for any two parameter sets identical except that
one has origin `"ATL"` and the other `"AT-L "`, the generated cache keys
always **differ**, because sanitization maps `"ATL"` to `"ATL"` but
`"AT-L "` to `"AT_L_"` (non-alphanumerics are replaced by underscores, not
stripped). -/
theorem generateSearchCacheKey_sanitize_replaces (d ci co : String) (rm : Nat)
    (ad ch : List Nat) (ag : List (List Nat)) :
    generateSearchCacheKey ⟨"ATL", d, ci, co, rm, ad, ch, ag⟩ ≠
      generateSearchCacheKey ⟨"AT-L ", d, ci, co, rm, ad, ch, ag⟩ := by
  obtain ⟨r, hr⟩ := generateSearchCacheKey_head d ci co rm ad ch ag
  intro heq
  rw [hr "ATL", hr "AT-L "] at heq
  have h1 : sanitizeCacheKeyPart "ATL" = "ATL" := by decide
  have h2 : sanitizeCacheKeyPart "AT-L " = "AT_L_" := by decide
  rw [h1, h2] at heq
  have hlen := congrArg String.length heq
  simp only [String.length_append] at hlen
  have l1 : ("ATL" : String).length = 3 := rfl
  have l2 : ("AT_L_" : String).length = 5 := rfl
  rw [l1, l2] at hlen
  omega

/-! ## Claim C9: session restore and expiry -/

/-- Claim C9: `loadSession` on a stored record whose `expiresAt` is in the
past returns a miss and deletes the record as a side effect; on a record
with a future `expiresAt` it returns the stored payload unchanged and
leaves the store untouched. -/
theorem loadSession_expiry {α : Type} (store : SessionStore α) (sessionId : String)
    (rec : StoredSession α) (now : Int)
    (hfound : List.lookup (sanitizeSessionId sessionId) store = some rec) :
    (rec.expiresAt < now →
      loadSession now store sessionId = (none, deleteSession store sessionId)) ∧
    (now < rec.expiresAt →
      loadSession now store sessionId = (some rec.data, store)) := by
  unfold loadSession
  rw [hfound]
  dsimp only
  constructor
  · intro hpast
    rw [if_pos hpast]
  · intro hfuture
    rw [if_neg (show ¬ now > rec.expiresAt by omega)]

/-- Claim C9 witness: a store holding one record with `expiresAt = 50`
queried at `now = 100` misses and leaves the record deleted; the same
record with `expiresAt = 500` hits and is left in place. -/
theorem loadSession_expiry_witness :
    loadSession 100 ([("vax_1_u", ⟨"vax_1_u", 7, 50, 10⟩)] : SessionStore Nat) "vax_1_u" =
      (none, deleteSession [("vax_1_u", ⟨"vax_1_u", 7, 50, 10⟩)] "vax_1_u") ∧
    loadSession 100 ([("vax_1_u", ⟨"vax_1_u", 7, 500, 10⟩)] : SessionStore Nat) "vax_1_u" =
      (some 7, [("vax_1_u", ⟨"vax_1_u", 7, 500, 10⟩)]) :=
  ⟨(loadSession_expiry [("vax_1_u", ⟨"vax_1_u", 7, 50, 10⟩)] "vax_1_u"
      ⟨"vax_1_u", 7, 50, 10⟩ 100 (by decide)).1 (by decide),
   (loadSession_expiry [("vax_1_u", ⟨"vax_1_u", 7, 500, 10⟩)] "vax_1_u"
      ⟨"vax_1_u", 7, 500, 10⟩ 100 (by decide)).2 (by decide)⟩

/-! ## Claim C10: cookie values truncated at the second `=` -/

/-- Claim C10: for a `Set-Cookie` header whose cookie value itself contains
an `=`, only the text between the first and the second `=` is stored: the
jar holds exactly that fragment, `getCookie` returns it, and
`getCookieHeader` reproduces only it. -/
theorem setCookies_truncates_at_second_eq (header name v1 v2 : String) (rest : List String)
    (hsplit : jsSplitChar ((jsSplitChar header ';').headD "") '=' = name :: v1 :: v2 :: rest)
    (hname : name ≠ "") (hv1 : v1 ≠ "") :
    setCookies [] [header] = [(jsTrim name, jsTrim v1)] ∧
    getCookie (setCookies [] [header]) (jsTrim name) = some (jsTrim v1) ∧
    getCookieHeader (setCookies [] [header]) = jsTrim name ++ "=" ++ jsTrim v1 := by
  have hjar : setCookies [] [header] = [(jsTrim name, jsTrim v1)] := by
    unfold setCookies
    simp only [List.foldl_cons, List.foldl_nil, hsplit]
    rw [if_pos (by simp [hname, hv1])]
    rfl
  refine ⟨hjar, ?_, ?_⟩
  · rw [hjar]
    simp [getCookie, List.lookup]
  · rw [hjar]
    rfl

/-- Claim C10 witness: the header `"token=abc=def; Path=/"` stores
`token ↦ abc`; `"def"` appears neither in `getCookie` nor in the cookie
header. -/
theorem setCookies_truncates_at_second_eq_witness :
    setCookies [] ["token=abc=def; Path=/"] = [("token", "abc")] ∧
    getCookie (setCookies [] ["token=abc=def; Path=/"]) "token" = some "abc" ∧
    getCookieHeader (setCookies [] ["token=abc=def; Path=/"]) = "token=abc" := by
  have h := setCookies_truncates_at_second_eq "token=abc=def; Path=/" "token" "abc" "def" []
    (by decide) (by decide) (by decide)
  have e1 : jsTrim "token" = "token" := by decide
  have e2 : jsTrim "abc" = "abc" := by decide
  rw [e1, e2] at h
  exact h

/-! ## Concrete sample data shared by counterexamples and witnesses -/

/-- A concrete extracted hotel result. -/
def sampleHotel : VaxHotelResult :=
  { hotelId := "123", name := "Flamingo Las Vegas", rating := 4,
    tripAdvisorRating := none, tripAdvisorReviews := none,
    location := "Las Vegas Strip", distanceFromAirport := none, rooms := [],
    vendor := "FJ1", remoteSource := "HBSHotel", destinationCode := "LAS",
    checkIn := "2026-01-10", checkOut := "2026-01-17", cleaningBadge := none }

/-- A second concrete extracted hotel result, from another vendor. -/
def sampleHotelB : VaxHotelResult :=
  { sampleHotel with hotelId := "456", name := "Luxor", vendor := "APV" }

/-! ## Claim C3: cache check versus login order -/

/-- An environment for a cold client (not logged in, nothing restorable)
whose result cache holds an entry for the requested key. -/
def envColdLoginCacheHit : OrchEnv :=
  { loggedIn := false, sessionRestoreHit := false,
    cachedResults := some [sampleHotel],
    liveVendors := .ok [],
    searchOutcome := fun _ => .threw "unreachable",
    cacheWrite := .ok () }

/-- Claim C3, counterexample: with a cache entry present but the client not
logged in, `searchAllVendors` performs the network login **before** the
cache is consulted — the claim's "no network activity at all" and "cache is
consulted before ensureLoggedIn" are both violated (line 792 awaits
`ensureLoggedIn()` before the cache lookup of line 796). -/
theorem searchAllVendors_login_precedes_cache :
    envColdLoginCacheHit.cachedResults = some [sampleHotel] ∧
    searchAllVendors envColdLoginCacheHit =
      ({ success := true, hotels := [sampleHotel], error := none },
        [OrchEvent.netLogin, OrchEvent.dbCacheRead]) ∧
    isNetworkEvent OrchEvent.netLogin = true := by
  decide

/-- Claim C3 as amended: `searchAllVendors` runs `ensureLoggedIn` first —
which performs the network login exchange when there is no in-memory or
restorable session — and only then consults the Result Cache; given a cache
hit it returns the cached aggregate and issues no vendor-list fetch, no
per-vendor search and no cache write. -/
theorem searchAllVendors_cache_hit (env : OrchEnv) (hotels : List VaxHotelResult)
    (hhit : env.cachedResults = some hotels) :
    (searchAllVendors env).1 = { success := true, hotels := hotels, error := none } ∧
    (searchAllVendors env).2 =
      (if env.loggedIn then []
       else if env.sessionRestoreHit then [] else [OrchEvent.netLogin]) ++
        [OrchEvent.dbCacheRead] := by
  unfold searchAllVendors
  rw [hhit]
  exact ⟨rfl, rfl⟩

/-- Claim C3 witness: the amended statement at a logged-in client with a
cache hit. -/
theorem searchAllVendors_cache_hit_witness :
    (searchAllVendors { envColdLoginCacheHit with loggedIn := true }).1 =
      { success := true, hotels := [sampleHotel], error := none } ∧
    (searchAllVendors { envColdLoginCacheHit with loggedIn := true }).2 =
      (if ({ envColdLoginCacheHit with loggedIn := true } : OrchEnv).loggedIn then []
       else if ({ envColdLoginCacheHit with loggedIn := true } : OrchEnv).sessionRestoreHit then []
       else [OrchEvent.netLogin]) ++ [OrchEvent.dbCacheRead] :=
  searchAllVendors_cache_hit { envColdLoginCacheHit with loggedIn := true } [sampleHotel] rfl

/-! ## Claim C2: a failing cache write -/

/-- An environment where the cache misses, the single vendor search
succeeds, and the cache write fails. -/
def envCacheWriteFails : OrchEnv :=
  { loggedIn := true, sessionRestoreHit := false, cachedResults := none,
    liveVendors := .ok [⟨"FJ1", "Funjet Vacations"⟩],
    searchOutcome := fun _ => .result { success := true, hotels := [sampleHotel], error := none },
    cacheWrite := .error "database write failed" }

/-- Claim C2, counterexample: when the cache write fails,
`saveSearchResultsToCache` rethrows (searchCache.ts line 171) and the
orchestrator's catch-all returns a **failure** with an empty hotel list —
the live aggregate (here `[sampleHotel]`) is discarded, contradicting the
claim that the write failure is swallowed and the live aggregate is
returned as a success. -/
theorem searchAllVendors_write_failure_loses_results :
    (searchAllVendors envCacheWriteFails).1 =
      { success := false, hotels := [], error := some "database write failed" } ∧
    ¬ ((searchAllVendors envCacheWriteFails).1.success = true ∧
        (searchAllVendors envCacheWriteFails).1.hotels = [sampleHotel]) := by
  decide

/-- Claim C2 as amended: if persisting the aggregate to the Result Cache
fails, the error propagates out of `saveSearchResultsToCache` into
`searchAllVendors`'s catch-all, which returns a failure response carrying
the error message and an **empty** hotel list — the live aggregate is not
returned. -/
theorem searchAllVendors_write_failure (env : OrchEnv) (vendors : List VaxVendor)
    (msg : String)
    (hmiss : env.cachedResults = none)
    (hvendors : env.liveVendors = .ok vendors)
    (hwrite : env.cacheWrite = .error msg) :
    (searchAllVendors env).1 = { success := false, hotels := [], error := some msg } := by
  unfold searchAllVendors
  rw [hmiss, hvendors, hwrite]

/-- Claim C2 witness: the amended statement at the concrete failing
environment. -/
theorem searchAllVendors_write_failure_witness :
    (searchAllVendors envCacheWriteFails).1 =
      { success := false, hotels := [], error := some "database write failed" } :=
  searchAllVendors_write_failure envCacheWriteFails [⟨"FJ1", "Funjet Vacations"⟩]
    "database write failed" rfl rfl rfl

/-! ## Claim C7: per-vendor failure isolation -/

/-- A per-vendor outcome the orchestrator skips: a thrown error or an
unsuccessful search response. -/
def isVendorFailure : VendorOutcome → Bool
  | .threw _ => true
  | .result r => !r.success

/-- Claim C7: for vendors `[A, B, C]` where `B` throws or returns an
unsuccessful result while `A` and `C` succeed, `searchAllVendors` (on a
cache miss, with the aggregate successfully persisted) reports success and
its aggregate is exactly `A`'s hotels followed by `C`'s hotels. -/
theorem searchAllVendors_skips_failed_vendor (env : OrchEnv) (vA vB vC : VaxVendor)
    (hsA hsC : List VaxHotelResult)
    (hmiss : env.cachedResults = none)
    (hvendors : env.liveVendors = .ok [vA, vB, vC])
    (hA : env.searchOutcome vA.code = .result { success := true, hotels := hsA, error := none })
    (hB : isVendorFailure (env.searchOutcome vB.code) = true)
    (hC : env.searchOutcome vC.code = .result { success := true, hotels := hsC, error := none })
    (hwrite : env.cacheWrite = .ok ()) :
    (searchAllVendors env).1 = { success := true, hotels := hsA ++ hsC, error := none } := by
  unfold searchAllVendors
  rw [hmiss, hvendors, hwrite]
  cases hBo : env.searchOutcome vB.code with
  | threw m =>
    simp [List.foldl_cons, List.foldl_nil, hA, hBo, hC]
  | result r =>
    have hrs : r.success = false := by
      rw [hBo] at hB
      simpa [isVendorFailure] using hB
    simp [List.foldl_cons, List.foldl_nil, hA, hBo, hC, hrs]

/-- An environment realizing claim C7's scenario: vendor `B` throws while
`A` and `C` succeed with one hotel each. -/
def envOneVendorFails : OrchEnv :=
  { loggedIn := true, sessionRestoreHit := false, cachedResults := none,
    liveVendors := .ok [⟨"A", "Vendor A"⟩, ⟨"B", "Vendor B"⟩, ⟨"C", "Vendor C"⟩],
    searchOutcome := fun c =>
      if c = "A" then .result { success := true, hotels := [sampleHotel], error := none }
      else if c = "B" then .threw "socket hang up"
      else .result { success := true, hotels := [sampleHotelB], error := none },
    cacheWrite := .ok () }

/-- Claim C7 witness: the concrete three-vendor run with `B` throwing. -/
theorem searchAllVendors_skips_failed_vendor_witness :
    (searchAllVendors envOneVendorFails).1 =
      { success := true, hotels := [sampleHotel] ++ [sampleHotelB], error := none } :=
  searchAllVendors_skips_failed_vendor envOneVendorFails
    ⟨"A", "Vendor A"⟩ ⟨"B", "Vendor B"⟩ ⟨"C", "Vendor C"⟩ [sampleHotel] [sampleHotelB]
    rfl rfl (by decide) (by decide) (by decide) rfl

/-! ## Sample response-document rows -/

/-- A well-formed hotel boundary row. -/
def flamingoRow : VaxRowDoc :=
  { isHotelRow := true,
    hotelInfo := some
      { nameLinkText := " Flamingo Las Vegas ",
        nameLinkOnclick := "ShowBaseWindow(&#39;HotelInformation/Default.aspx?HotelId=123&VendorCode=FJ1&RemoteSourceCode=HBSHotel&DestinationCode=LAS&#39;);",
        ratingMarkerCount := 4,
        taImgAlt := some "4.5 of 5 stars",
        basedOnLinkText := some "Based on 1,234 reviews",
        locationText := "Las Vegas Strip",
        milesStrongText := "2.5 miles" },
    badgeOnclick := none, roomWrapper := none }

/-- A second well-formed hotel boundary row. -/
def luxorRow : VaxRowDoc :=
  { isHotelRow := true,
    hotelInfo := some
      { nameLinkText := "Luxor",
        nameLinkOnclick := "ShowBaseWindow(&#39;HotelInformation/Default.aspx?HotelId=456&VendorCode=FJ1&RemoteSourceCode=HBSHotel&DestinationCode=LAS&#39;);",
        ratingMarkerCount := 3,
        taImgAlt := none, basedOnLinkText := none,
        locationText := "Las Vegas Strip", milesStrongText := "" },
    badgeOnclick := none, roomWrapper := none }

/-- A hotel boundary row whose interactive name element is empty:
whitespace-only link text. -/
def namelessRow : VaxRowDoc :=
  { isHotelRow := true,
    hotelInfo := some
      { nameLinkText := "  ", nameLinkOnclick := "", ratingMarkerCount := 0,
        taImgAlt := none, basedOnLinkText := none, locationText := "",
        milesStrongText := "" },
    badgeOnclick := none, roomWrapper := none }

/-- A room row following a hotel boundary row. -/
def deluxeRoomRow : VaxRowDoc :=
  { isHotelRow := false, hotelInfo := none, badgeOnclick := none,
    roomWrapper := some
      { roomLinkOnclick := "SelectRoom(&#39;?room=DLX&rate=1&#39;);",
        roomLinkText := "Deluxe King",
        priceStrongText := "$1,234.56",
        priceColText := "Total $1,234.56 $617.28 per person",
        addedValueButtonTexts := [], valueIndicatorTexts := [] } }

/-! ## Extraction-engine lemmas -/

/-- A hotel parsed by `parseHotelSection` carries exactly the
check-in/check-out context it was given. -/
lemma parseHotelSection_dates (ci co : String) (r : VaxRowDoc) (fr : List VaxRowDoc)
    (h : VaxHotelResult) (hh : parseHotelSection ci co r fr = some h) :
    h.checkIn = ci ∧ h.checkOut = co := by
  unfold parseHotelSection at hh
  cases hr : r.hotelInfo with
  | none => rw [hr] at hh; exact absurd hh (by simp)
  | some info =>
    rw [hr] at hh
    dsimp only at hh
    by_cases hn : jsTrim info.nameLinkText = ""
    · rw [if_pos hn] at hh; exact absurd hh (by simp)
    · rw [if_neg hn] at hh
      injection hh with hx
      subst hx
      exact ⟨rfl, rfl⟩

/-- Every hotel produced by the row loop carries the given
check-in/check-out context. -/
lemma mem_parseSearchRows_dates (ci co : String) :
    ∀ (rows : List VaxRowDoc) (h : VaxHotelResult),
      h ∈ parseSearchRows ci co rows → h.checkIn = ci ∧ h.checkOut = co := by
  intro rows
  induction rows with
  | nil => intro h hm; simp [parseSearchRows] at hm
  | cons r rest ih =>
    intro h hm
    unfold parseSearchRows at hm
    by_cases hb : r.isHotelRow = true
    · rw [if_pos hb] at hm
      cases hps : parseHotelSection ci co r (rest.takeWhile fun x => !x.isHotelRow) with
      | some hotel =>
        rw [hps] at hm
        cases hm with
        | head => exact parseHotelSection_dates ci co r _ h hps
        | tail _ hmem => exact ih h hmem
      | none => rw [hps] at hm; exact ih h hm
    · rw [if_neg hb] at hm; exact ih h hm

/-- A hotel boundary row that yields a result: it has a
`.hotel-info-wrapper` and a non-empty trimmed interactive name. -/
def namedHotelRow (r : VaxRowDoc) : Bool :=
  r.isHotelRow &&
    (match r.hotelInfo with
     | none => false
     | some info => jsTrim info.nameLinkText != "")

/-- `parseHotelSection` yields a result exactly when the row has an info
wrapper with a non-empty trimmed name. -/
lemma parseHotelSection_isSome (ci co : String) (r : VaxRowDoc) (fr : List VaxRowDoc) :
    (parseHotelSection ci co r fr).isSome =
      (match r.hotelInfo with
       | none => false
       | some info => jsTrim info.nameLinkText != "") := by
  unfold parseHotelSection
  cases r.hotelInfo with
  | none => rfl
  | some info =>
    dsimp only
    by_cases hn : jsTrim info.nameLinkText = ""
    · rw [if_pos hn]; simp [hn]
    · rw [if_neg hn]; simp [hn]

/-- The number of extracted hotels equals the number of named hotel
boundary rows. -/
lemma length_parseSearchRows (ci co : String) :
    ∀ rows : List VaxRowDoc,
      (parseSearchRows ci co rows).length = rows.countP namedHotelRow
  | [] => by simp [parseSearchRows, List.countP_nil]
  | r :: rest => by
    unfold parseSearchRows
    rw [List.countP_cons]
    have hs := parseHotelSection_isSome ci co r (rest.takeWhile fun x => !x.isHotelRow)
    by_cases hb : r.isHotelRow = true
    · rw [if_pos hb]
      cases hps : parseHotelSection ci co r (rest.takeWhile fun x => !x.isHotelRow) with
      | some hotel =>
        rw [hps] at hs
        have hnamed : namedHotelRow r = true := by
          unfold namedHotelRow
          rw [hb]
          simpa using hs.symm
        simp [hnamed, length_parseSearchRows ci co rest]
      | none =>
        rw [hps] at hs
        have hnamed : namedHotelRow r = false := by
          unfold namedHotelRow
          rw [hb]
          simpa using hs.symm
        simp [hnamed, length_parseSearchRows ci co rest]
    · rw [if_neg hb]
      have hbf : r.isHotelRow = false := by
        cases hbv : r.isHotelRow
        · rfl
        · exact absurd hbv hb
      have hnamed : namedHotelRow r = false := by
        unfold namedHotelRow
        rw [hbf]
        rfl
      simp [hnamed, length_parseSearchRows ci co rest]

/-! ## Claim C4: missing header dates -/

/-- A document whose header region contains no check-in/check-out dates but
which has one well-formed hotel row with a room row. -/
def noHeaderDoc : VaxSearchDoc :=
  { headerText := "Hotel Search Results", rows := [flamingoRow, deluxeRoomRow] }

/-- Claim C4, counterexample: a document whose header yields neither a
check-in nor a check-out date is **not** fatal — `parseSearchHtml` still
returns the hotel result, with empty-string date context, rather than no
results. -/
theorem parseSearchHtml_missing_dates_not_fatal :
    scanFirst (matchHeaderDate "Check-in".data) noHeaderDoc.headerText.data = none ∧
    scanFirst (matchHeaderDate "Check-out".data) noHeaderDoc.headerText.data = none ∧
    parseSearchHtml noHeaderDoc ≠ [] ∧
    (parseSearchHtml noHeaderDoc).length = 1 ∧
    (parseSearchHtml noHeaderDoc).map (fun h => (h.checkIn, h.checkOut)) = [("", "")] := by
  decide

/-- Claim C4 as amended: if the header region yields no check-in and no
check-out date, `parseSearchHtml` does not fail — it parses the document
with empty-string date context, and every produced result carries
`checkIn = ""` and `checkOut = ""`. -/
theorem parseSearchHtml_missing_dates (doc : VaxSearchDoc)
    (hin : scanFirst (matchHeaderDate "Check-in".data) doc.headerText.data = none)
    (hout : scanFirst (matchHeaderDate "Check-out".data) doc.headerText.data = none) :
    parseSearchHtml doc = parseSearchRows "" "" doc.rows ∧
    ∀ h ∈ parseSearchHtml doc, h.checkIn = "" ∧ h.checkOut = "" := by
  have h1 : parseSearchHtml doc = parseSearchRows "" "" doc.rows := by
    unfold parseSearchHtml
    rw [hin, hout]
  refine ⟨h1, ?_⟩
  rw [h1]
  exact fun h hm => mem_parseSearchRows_dates "" "" doc.rows h hm

/-- Claim C4 witness: the amended statement at the concrete dateless
document. -/
theorem parseSearchHtml_missing_dates_witness :
    parseSearchHtml noHeaderDoc = parseSearchRows "" "" noHeaderDoc.rows ∧
    ∀ h ∈ parseSearchHtml noHeaderDoc, h.checkIn = "" ∧ h.checkOut = "" :=
  parseSearchHtml_missing_dates noHeaderDoc (by decide) (by decide)

/-! ## Claim C8: nameless rows are skipped -/

/-- Claim C8: a document with `N` well-formed hotel boundary rows plus one
additional boundary row whose name element is absent or empty yields
exactly `N` results — the nameless row is silently skipped. -/
theorem parseSearchHtml_skips_nameless (doc : VaxSearchDoc) (N : Nat)
    (hrows : doc.rows.countP (fun r => r.isHotelRow) = N + 1)
    (hnamed : doc.rows.countP namedHotelRow = N) :
    (parseSearchHtml doc).length = N := by
  unfold parseSearchHtml
  dsimp only
  rw [length_parseSearchRows]
  exact hnamed

/-- A document with two well-formed hotel rows, a room row and one
nameless hotel boundary row. -/
def withHeaderDoc : VaxSearchDoc :=
  { headerText := "Check-in - 10JAN26   Check-out - 17JAN26",
    rows := [flamingoRow, deluxeRoomRow, namelessRow, luxorRow] }

/-- Claim C8 witness: the concrete document with `N = 2` well-formed rows
and one nameless row yields exactly 2 results. -/
theorem parseSearchHtml_skips_nameless_witness :
    withHeaderDoc.rows.countP (fun r => r.isHotelRow) = 2 + 1 ∧
    withHeaderDoc.rows.countP namedHotelRow = 2 ∧
    (parseSearchHtml withHeaderDoc).length = 2 :=
  ⟨by decide, by decide, parseSearchHtml_skips_nameless withHeaderDoc 2 (by decide) (by decide)⟩

/-! ## Claim C1: the POST body ignores the business parameters -/

/-- Looking a key up in a JavaScript object after a property assignment:
the assigned key reads back the new value, any other key is unaffected. -/
lemma lookup_jsObjSet (m : List (String × String)) (k k2 v : String) :
    List.lookup k2 (jsObjSet m k v) = if k2 = k then some v else List.lookup k2 m := by
  induction m with
  | nil =>
    by_cases h : k2 = k
    · simp [jsObjSet, List.lookup, h]
    · have hb : (k2 == k) = false := by simp [h]
      simp [jsObjSet, List.lookup, h, hb]
  | cons kv rest ih =>
    unfold jsObjSet
    by_cases h1 : kv.1 = k
    · have h1b : (kv.1 == k) = true := by simp [h1]
      by_cases h2 : k2 = k
      · have h2b : (k2 == k) = true := by simp [h2]
        simp [List.lookup, h1b, h2b, h2]
      · have h2b : (k2 == k) = false := by simp [h2]
        have h2c : (k2 == kv.1) = false := by simp [h1, h2]
        simp [List.lookup, h1b, h2b, h2c, h2]
    · have h1b : (kv.1 == k) = false := by simp [h1]
      rw [h1b]
      by_cases h2 : k2 = kv.1
      · have h2k : ¬ k2 = k := fun hkk => h1 (by rw [← h2]; exact hkk)
        have h2b : (k2 == kv.1) = true := by simp [h2]
        simp [List.lookup, h2b, h2k]
      · have h2b : (k2 == kv.1) = false := by simp [h2]
        simp [List.lookup, h2b, ih]

/-- Claim C1 (evidence of the code bug): for **every** parameter set, over
any harvested hidden fields, the POST body built by `VaxClient.search`
carries the vendor code and package type from the parameters but fixed
literal business values — origin `"Atlanta, Georgia (ATL)"`, destination
`"Las Vegas, Nevada (LAS)"`, departure/check-in `"10JAN26"`,
return/check-out `"17JAN26"`, one room and two adults — regardless of the
origin, destination, dates and occupancy in the parameters. -/
theorem buildSearchPostBody_ignores_params (params : VaxSearchParams)
    (formHiddenValues : List (String × String)) (smField : String) :
    List.lookup (formatSearchComponentsKey "vendor")
        (buildSearchPostBody params formHiddenValues smField) = some params.vendor ∧
    List.lookup (formatSearchComponentsKey "package")
        (buildSearchPostBody params formHiddenValues smField) = some params.packageType ∧
    List.lookup (formatSearchComponentsKey "Origin")
        (buildSearchPostBody params formHiddenValues smField) = some "Atlanta, Georgia (ATL)" ∧
    List.lookup (formatSearchComponentsKey "Destination")
        (buildSearchPostBody params formHiddenValues smField) = some "Las Vegas, Nevada (LAS)" ∧
    List.lookup (formatSearchComponentsKey "departure")
        (buildSearchPostBody params formHiddenValues smField) = some "10JAN26" ∧
    List.lookup (formatSearchComponentsKey "return")
        (buildSearchPostBody params formHiddenValues smField) = some "17JAN26" ∧
    List.lookup (formatSearchComponentsKey "hotelcheckin")
        (buildSearchPostBody params formHiddenValues smField) = some "10JAN26" ∧
    List.lookup (formatSearchComponentsKey "hotelcheckout")
        (buildSearchPostBody params formHiddenValues smField) = some "17JAN26" ∧
    List.lookup (formatSearchComponentsKey "passengers$numrooms")
        (buildSearchPostBody params formHiddenValues smField) = some "1" ∧
    List.lookup (formatSearchComponentsKey "passengers$pr$ctl00$pi$adults")
        (buildSearchPostBody params formHiddenValues smField) = some "2" := by
  unfold buildSearchPostBody searchBodyEntries
  simp [List.foldl_cons, List.foldl_nil, lookup_jsObjSet,
    formatSearchComponentsKey, formatContentPlaceholderKey]

end Farseer
